import Mathlib

/-!
Verification of the TemboPlus Go SDK (collections, disbursements, status
queries, webhook validation) against its natural-language specification.

The embedding models JSON documents as an inductive value type, the Go
`encoding/json` unmarshalling of those values into the SDK's record types,
and the SDK's pure control flow.  Network replies are passed in explicitly
as data (`HttpReply`), so that "before any network call" becomes "the result
does not depend on the reply argument".
-/

namespace TemboPlus

/-- A JSON document, at the value level.  Numbers are modelled as rationals
(the SDK uses them only for money amounts and small status codes, where
float64 is exact). -/
inductive JsonValue where
  | jnull
  | jbool (b : Bool)
  | jnum (v : ℚ)
  | jstr (s : String)
  | jarr (elems : List JsonValue)
  | jobj (fields : List (String × JsonValue))

/-- Look a key up in the field list of a JSON object.  Go's `encoding/json`
processes duplicate keys in order, each overwriting the previous one, so the
last binding wins. -/
def lookupField : List (String × JsonValue) → String → Option JsonValue
  | [], _ => none
  | (k2, v) :: rest, k =>
    match lookupField rest k with
    | some v2 => some v2
    | none => if k2 = k then some v else none

/-- Go unmarshalling of an object field into a `string` struct field:
a missing field leaves the zero value `""`, a JSON `null` has no effect
(also leaving `""`), a JSON string yields its content, and anything else is
a type error that fails the whole decode. -/
def goStringField (fs : List (String × JsonValue)) (k : String) : Option String :=
  match lookupField fs k with
  | none => some ""
  | some .jnull => some ""
  | some (.jstr s) => some s
  | some _ => none

/-- Go unmarshalling of an object field into an `int` struct field:
missing or `null` leaves the zero value `0`, an integral JSON number yields
its value, and anything else (including fractional numbers) is a type
error. -/
def goIntField (fs : List (String × JsonValue)) (k : String) : Option Int :=
  match lookupField fs k with
  | none => some 0
  | some .jnull => some 0
  | some (.jnum v) => if v.den = 1 then some v.num else none
  | some _ => none

/-- Go unmarshalling of an object field into a `float64` struct field:
missing or `null` leaves the zero value `0`, a JSON number yields its value,
and anything else is a type error. -/
def goNumField (fs : List (String × JsonValue)) (k : String) : Option ℚ :=
  match lookupField fs k with
  | none => some 0
  | some .jnull => some 0
  | some (.jnum v) => some v
  | some _ => none

/-! ## Domain records (src/models.go) -/

/-- MobileMoneyCollectionRequest (models.go): a mobile money collection
request.  `Amount` is `float64` in the source, modelled as `ℚ`. -/
structure MobileMoneyCollectionRequest where
  MSISDN : String
  Channel : String
  Amount : ℚ
  Narration : String
  TransactionRef : String
  TransactionDate : String
  CallbackURL : String

/-- MobileMoneyCollectionResponse (models.go): the API response shape used
by collections, disbursements and status queries. -/
structure MobileMoneyCollectionResponse where
  StatusCode : String
  TransactionRef : String
  TransactionID : String

/-- WebhookPayload (models.go): the webhook callback payload. -/
structure WebhookPayload where
  StatusCode : String
  TransactionRef : String
  TransactionID : String

/-- Error (models.go): the business-level error value built by `makeRequest`
when a 200 reply carries a rejected or generic-error status code. -/
structure Error where
  StatusCode : String
  Message : String
  Details : String

/-- APIError (models.go): the gateway error envelope decoded from non-200
replies.  `Details` is `json.RawMessage`, which accepts any JSON value. -/
structure APIError where
  StatusCode : Int
  Reason : String
  Message : String
  Details : Option JsonValue

/-- WalletToMobileRequest (models.go): a wallet-to-mobile disbursement
request. -/
structure WalletToMobileRequest where
  CountryCode : String
  AccountNo : String
  ServiceCode : String
  Amount : ℚ
  MSISDN : String
  Narration : String
  CurrencyCode : String
  RecipientNames : String
  TransactionRef : String
  TransactionDate : String
  CallbackURL : String

/-- PaymentStatusRequest (models.go): the request body for status checks. -/
structure PaymentStatusRequest where
  TransactionRef : String
  TransactionID : String

/-! ## Struct decoders (Go `json.Unmarshal` into the record types)

Unmarshalling a JSON `null` into a Go struct has no effect and produces no
error, leaving the zero value; unmarshalling any non-object, non-null value
into a struct is an error.  Unknown object keys are ignored. -/

/-- Decode a JSON value into `MobileMoneyCollectionResponse` the way
`json.Unmarshal` does; `none` is a decode error. -/
def decodeMobileMoneyCollectionResponse : JsonValue → Option MobileMoneyCollectionResponse
  | .jnull => some ⟨"", "", ""⟩
  | .jobj fs => do
    let sc ← goStringField fs "statusCode"
    let tr ← goStringField fs "transactionRef"
    let ti ← goStringField fs "transactionId"
    some ⟨sc, tr, ti⟩
  | _ => none

/-- Decode a JSON value into `APIError` the way `json.Unmarshal` does;
`none` is a decode error. -/
def decodeAPIError : JsonValue → Option APIError
  | .jnull => some ⟨0, "", "", none⟩
  | .jobj fs => do
    let sc ← goIntField fs "statusCode"
    let rs ← goStringField fs "reason"
    let ms ← goStringField fs "message"
    some ⟨sc, rs, ms, lookupField fs "details"⟩
  | _ => none

/-- Decode a JSON value into `WebhookPayload` the way `json.Unmarshal`
does; `none` is a decode error. -/
def decodeWebhookPayload : JsonValue → Option WebhookPayload
  | .jnull => some ⟨"", "", ""⟩
  | .jobj fs => do
    let sc ← goStringField fs "statusCode"
    let tr ← goStringField fs "transactionRef"
    let ti ← goStringField fs "transactionId"
    some ⟨sc, tr, ti⟩
  | _ => none

/-- Decode a JSON value into `MobileMoneyCollectionRequest` the way
`json.Unmarshal` does; `none` is a decode error. -/
def decodeMobileMoneyCollectionRequest : JsonValue → Option MobileMoneyCollectionRequest
  | .jnull => some ⟨"", "", 0, "", "", "", ""⟩
  | .jobj fs => do
    let m ← goStringField fs "msisdn"
    let c ← goStringField fs "channel"
    let a ← goNumField fs "amount"
    let n ← goStringField fs "narration"
    let tr ← goStringField fs "transactionRef"
    let td ← goStringField fs "transactionDate"
    let cb ← goStringField fs "callbackUrl"
    some ⟨m, c, a, n, tr, td, cb⟩
  | _ => none

/-- Serialization of `MobileMoneyCollectionRequest` by `json.Marshal`:
an object with the seven tagged fields in struct order. -/
def marshalMobileMoneyCollectionRequest (req : MobileMoneyCollectionRequest) : JsonValue :=
  .jobj [("msisdn", .jstr req.MSISDN),
         ("channel", .jstr req.Channel),
         ("amount", .jnum req.Amount),
         ("narration", .jstr req.Narration),
         ("transactionRef", .jstr req.TransactionRef),
         ("transactionDate", .jstr req.TransactionDate),
         ("callbackUrl", .jstr req.CallbackURL)]

/-! ## Tolerant numeric decoder (models.go, NullableFloat64) -/

/-- Consume a maximal run of decimal digits: returns the digits and the
remaining characters. -/
def readDigits : List Char → List Char × List Char
  | [] => ([], [])
  | c :: cs =>
    if c.isDigit then
      let p := readDigits cs
      (c :: p.1, p.2)
    else ([], c :: cs)

/-- Numeric value of a digit string. -/
def digitsToNat (ds : List Char) : ℕ :=
  ds.foldl (fun n c => 10 * n + (c.toNat - 48)) 0

/-- Parse a nonempty digit run that must consume the whole input. -/
def parseDigitsAll (cs : List Char) : Option ℕ :=
  match readDigits cs with
  | ([], _) => none
  | (ds, []) => some (digitsToNat ds)
  | (_, _ :: _) => none

/-- Parse an optionally signed digit run that must consume the whole
input (the exponent of a JSON number). -/
def parseSignedDigits : List Char → Option ℤ
  | '+' :: r => (parseDigitsAll r).map Int.ofNat
  | '-' :: r => (parseDigitsAll r).map (fun n => -(n : ℤ))
  | r => (parseDigitsAll r).map Int.ofNat

/-- Parse the optional exponent part of a JSON number, consuming the whole
input; an absent exponent is 0. -/
def parseExpPart : List Char → Option ℤ
  | [] => some 0
  | 'e' :: r => parseSignedDigits r
  | 'E' :: r => parseSignedDigits r
  | _ => none

/-- Parse the optional fraction part followed by the optional exponent part
of a JSON number, consuming the whole input. -/
def parseFracExp : List Char → Option (ℚ × ℤ)
  | '.' :: r =>
    match readDigits r with
    | ([], _) => none
    | (ds, rest) =>
      match parseExpPart rest with
      | none => none
      | some e => some ((digitsToNat ds : ℚ) / (10 : ℚ) ^ ds.length, e)
  | cs => (parseExpPart cs).map (fun e => ((0 : ℚ), e))

/-- Parse an unsigned JSON number (integer part without a leading zero,
optional fraction, optional exponent). -/
def parseUnsignedNumber (cs : List Char) : Option ℚ :=
  match readDigits cs with
  | ([], _) => none
  | (ds, rest) =>
    if 1 < ds.length ∧ ds.head? = some '0' then none
    else
      match parseFracExp rest with
      | none => none
      | some (f, e) => some (((digitsToNat ds : ℚ) + f) * (10 : ℚ) ^ e)

/-- Parse a character list as a single JSON number token (RFC 8259
grammar), returning its value. -/
def parseJsonNumberList : List Char → Option ℚ
  | '-' :: cs => (parseUnsignedNumber cs).map Neg.neg
  | cs => parseUnsignedNumber cs

/-- Parse a string as a single JSON number token (RFC 8259 grammar),
returning its value. -/
def parseJsonNumber (s : String) : Option ℚ :=
  parseJsonNumberList s.toList

/-- The four insignificant whitespace characters of JSON (RFC 8259). -/
def isJsonSpace (c : Char) : Bool :=
  c = ' ' ∨ c = '\t' ∨ c = '\n' ∨ c = '\r'

/-- Drop leading JSON whitespace. -/
def dropWsLeft : List Char → List Char
  | [] => []
  | c :: cs => if isJsonSpace c then dropWsLeft cs else c :: cs

/-- Drop leading and trailing JSON whitespace. -/
def trimWs (cs : List Char) : List Char :=
  (dropWsLeft (dropWsLeft cs).reverse).reverse

/-- Semantics of Go's `json.Unmarshal([]byte(s), &v)` with `v : float64`:
the bytes may carry surrounding JSON whitespace; a number token yields its
value, and the literal `null` succeeds as a no-op, leaving the zero value 0
(Go documents that unmarshalling a JSON null into a non-pointer value has
no effect and produces no error).  Everything else is an error (`none`). -/
def goUnmarshalFloat64 (s : String) : Option ℚ :=
  let t := trimWs s.toList
  if t = "null".toList then some 0 else parseJsonNumberList t

/-- parseFloatFromString (models.go): delegates to `json.Unmarshal` of the
quoted content into a `float64`, i.e. the same semantics as
`goUnmarshalFloat64`. -/
def parseFloatFromString (s : String) : Option ℚ :=
  goUnmarshalFloat64 s

/-- NullableFloat64 (models.go): an optional float64 decoded tolerantly. -/
structure NullableFloat64 where
  Value : Option ℚ

/-- The byte-level check `string(b) == "null" || string(b) == "\"\""` at
the start of `NullableFloat64.UnmarshalJSON`, at the token level. -/
def isNullOrEmptyStringToken : JsonValue → Bool
  | .jnull => true
  | .jstr s => s = ""
  | _ => false

/-- NullableFloat64.UnmarshalJSON (models.go), over a JSON token.  Returns
the decoded value together with the Go error result; every branch of the
source returns a nil error.  The steps mirror the source: the byte check
for `null`/`""`, then unmarshal as a bare number, then unmarshal as a
string and try its content (first via `json.Unmarshal`, then via the
`parseFloatFromString` helper), and finally the fallback to nil. -/
def NullableFloat64.UnmarshalJSON (b : JsonValue) : NullableFloat64 × Option String :=
  if isNullOrEmptyStringToken b then (⟨none⟩, none)
  else
    match b with
    | .jnum v => (⟨some v⟩, none)
    | .jstr s =>
      if s = "" then (⟨none⟩, none)
      else
        match goUnmarshalFloat64 s with
        | some v => (⟨some v⟩, none)
        | none =>
          match parseFloatFromString s with
          | some v => (⟨some v⟩, none)
          | none => (⟨none⟩, none)
    | _ => (⟨none⟩, none)

/-! ## Constants (client.go, endpoints file) -/

def DefaultBaseURLSandbox : String := "https://sandbox.temboplus.com"

def DefaultBaseURLProduction : String := "https://api.temboplus.com"

def Sandbox : String := "sandbox"

def Production : String := "production"

def StatusPendingACK : String := "PENDING_ACK"

def StatusPaymentAccepted : String := "PAYMENT_ACCEPTED"

def StatusPaymentRejected : String := "PAYMENT_REJECTED"

def StatusGenericError : String := "GENERIC_ERROR"

def ChannelTZTigoC2B : String := "TZ-TIGO-C2B"

def ChannelTZHalotelC2B : String := "TZ-HALOTEL-C2B"

def ChannelTZAirtelC2B : String := "TZ-AIRTEL-C2B"

def ServiceTZTigoB2C : String := "TZ-TIGO-B2C"

def ServiceTZAirtelB2C : String := "TZ-AIRTEL-B2C"

def ServiceTZBankB2C : String := "TZ-BANK-B2C"

/-! ## Client construction (client.go) -/

/-- ClientConfig (client.go).  The `Environmen` field keeps the source's
spelling; `Timeout` is `time.Duration`, i.e. a count of nanoseconds. -/
structure ClientConfig where
  Environmen : String
  AccountID : String
  SecretKey : String
  Timeout : Int

/-- Client (client.go): the state held after `NewClient`. -/
structure Client where
  baseURL : String
  accountID : String
  secretKey : String
  timeout : Int

/-- NewClient (client.go): sandbox base URL unless the environment equals
the production constant; a zero timeout defaults to 30 seconds
(30 * 10^9 nanoseconds); credentials are copied as given. -/
def NewClient (config : ClientConfig) : Client :=
  { baseURL := if config.Environmen = Production then DefaultBaseURLProduction
               else DefaultBaseURLSandbox
    accountID := config.AccountID
    secretKey := config.SecretKey
    timeout := if config.Timeout = 0 then 30 * 1000000000 else config.Timeout }

/-! ## Channel and service whitelists (client.go helpers) -/

/-- GetSupportedChannels (client.go). -/
def GetSupportedChannels : List String :=
  [ChannelTZTigoC2B, ChannelTZAirtelC2B, ChannelTZHalotelC2B]

/-- The membership loop shared by `isValidChannel` and `isValidService`:
scan the list and compare each element with the candidate. -/
def containsString : List String → String → Bool
  | [], _ => false
  | c :: rest, x => if c = x then true else containsString rest x

/-- isValidChannel (client.go). -/
def isValidChannel (channel : String) : Bool :=
  containsString GetSupportedChannels channel

/-- GetSupportedServices (client.go). -/
def GetSupportedServices : List String :=
  [ServiceTZTigoB2C, ServiceTZAirtelB2C, ServiceTZBankB2C]

/-- isValidService (client.go). -/
def isValidService (service : String) : Bool :=
  containsString GetSupportedServices service

/-! ## Transport classification (client.go, makeRequest) -/

/-- A reply from the gateway as seen by the client: the HTTP status code
and the body.  A body that is not valid JSON at all is `none`. -/
structure HttpReply where
  status : ℕ
  body : Option JsonValue

/-- The outcome of an SDK operation, distinguishing the error kinds of the
source: success, business rejection inside a 200 reply, a decoded gateway
error envelope, a generic transport error carrying the raw status and body,
a response-decode failure, and a local pre-flight validation failure. -/
inductive RequestResult where
  | ok (response : MobileMoneyCollectionResponse)
  | businessError (response : MobileMoneyCollectionResponse) (e : Error)
  | apiError (e : APIError)
  | transportError (status : ℕ) (body : Option JsonValue)
  | decodeFailed
  | validationError (msg : String)

/-- Run a struct decoder on a reply body; a body that is not valid JSON
fails the decode. -/
def decodeBody (dec : JsonValue → Option α) : Option JsonValue → Option α
  | none => none
  | some j => dec j

/-- makeRequest (client.go), reply-classification part.  A status other
than exactly `http.StatusOK` (200) tries the `APIError` envelope and
requires a non-zero decoded status code, falling back to a generic error
with the raw status and body; a 200 reply decodes the response shape and
turns `PAYMENT_REJECTED` or `GENERIC_ERROR` status codes into a business
`Error` with message "Request failed". -/
def makeRequest (reply : HttpReply) : RequestResult :=
  if reply.status ≠ 200 then
    match decodeBody decodeAPIError reply.body with
    | some apiErr =>
      if apiErr.StatusCode ≠ 0 then .apiError apiErr
      else .transportError reply.status reply.body
    | none => .transportError reply.status reply.body
  else
    match decodeBody decodeMobileMoneyCollectionResponse reply.body with
    | none => .decodeFailed
    | some response =>
      if response.StatusCode = StatusPaymentRejected ∨ response.StatusCode = StatusGenericError then
        .businessError response ⟨response.StatusCode, "Request failed", ""⟩
      else .ok response

/-! ## Validation and operations (client.go)

Each network-calling operation takes the gateway's reply as an explicit
argument; an operation that rejects locally returns a result that does not
depend on that argument. -/

/-- validateMobileMoneyRequest (client.go): checks in source order, with
the source's error messages ("%v" of the supported-channel slice renders as
a bracketed space-separated list). -/
def validateMobileMoneyRequest (req : MobileMoneyCollectionRequest) : Option String :=
  if req.MSISDN = "" then some "MSISDN is required"
  else if req.Channel = "" then some "channel is required"
  else if req.Amount ≤ 0 then some "amount must be greater than 0"
  else if req.Narration = "" then some "narration is required"
  else if req.TransactionRef = "" then some "transactionRef is required"
  else if req.TransactionDate = "" then some "transactionDate is required"
  else if req.CallbackURL = "" then some "callbackUrl is required"
  else if !(isValidChannel req.Channel) then
    some ("invalid channel: " ++ req.Channel ++
      ". Supported channels: [TZ-TIGO-C2B TZ-AIRTEL-C2B TZ-HALOTEL-C2B]")
  else none

/-- CollectFromMobileMoney (client.go): validate, then delegate the reply
to `makeRequest`. -/
def CollectFromMobileMoney (req : MobileMoneyCollectionRequest) (reply : HttpReply) :
    RequestResult :=
  match validateMobileMoneyRequest req with
  | some msg => .validationError msg
  | none => makeRequest reply

/-- validateWalletToMobileRequest (client.go): checks in source order. -/
def validateWalletToMobileRequest (req : WalletToMobileRequest) : Option String :=
  if req.CountryCode = "" then some "countryCode is required"
  else if req.CountryCode ≠ "TZ" then some ("unsupported countryCode: " ++ req.CountryCode)
  else if req.AccountNo = "" then some "accountNo is required"
  else if req.ServiceCode = "" then some "serviceCode is required"
  else if !(isValidService req.ServiceCode) then
    some ("invalid serviceCode: " ++ req.ServiceCode ++
      ". Supported services: [TZ-TIGO-B2C TZ-AIRTEL-B2C TZ-BANK-B2C]")
  else if req.Amount ≤ 0 then some "amount must be greater than 0"
  else if req.MSISDN = "" then some "msisdn is required"
  else if req.Narration = "" then some "narration is required"
  else if req.CurrencyCode = "" then some "currencyCode is required"
  else if req.CurrencyCode ≠ "TZS" then some ("unsupported currencyCode: " ++ req.CurrencyCode)
  else if req.RecipientNames = "" then some "recipientNames is required"
  else if req.TransactionRef = "" then some "transactionRef is required"
  else if req.TransactionDate = "" then some "transactionDate is required"
  else if req.CallbackURL = "" then some "callbackUrl is required"
  else none

/-- PayWalletToMobile (client.go): validate, then delegate to
`makeRequest`. -/
def PayWalletToMobile (req : WalletToMobileRequest) (reply : HttpReply) : RequestResult :=
  match validateWalletToMobileRequest req with
  | some msg => .validationError msg
  | none => makeRequest reply

/-- PayWalletToBank (client.go): an empty service code defaults to
`ServiceTZBankB2C`; any other service code than `ServiceTZBankB2C` is
rejected; otherwise the request proceeds as an ordinary wallet-to-mobile
disbursement. -/
def PayWalletToBank (req : WalletToMobileRequest) (reply : HttpReply) : RequestResult :=
  let req2 := if req.ServiceCode = "" then { req with ServiceCode := ServiceTZBankB2C } else req
  if req2.ServiceCode ≠ ServiceTZBankB2C then
    .validationError ("serviceCode must be " ++ ServiceTZBankB2C ++ " for bank payouts")
  else PayWalletToMobile req2 reply

/-- GetCollectionStatus (client.go): requires at least one of the two
identifiers, then delegates to `makeRequest`. -/
def GetCollectionStatus (req : PaymentStatusRequest) (reply : HttpReply) : RequestResult :=
  if req.TransactionRef = "" ∧ req.TransactionID = "" then
    .validationError "either transactionRef or transactionId is required"
  else makeRequest reply

/-- GetPaymentStatus (client.go): same validation and delegation as
`GetCollectionStatus`, against the payment-status endpoint. -/
def GetPaymentStatus (req : PaymentStatusRequest) (reply : HttpReply) : RequestResult :=
  if req.TransactionRef = "" ∧ req.TransactionID = "" then
    .validationError "either transactionRef or transactionId is required"
  else makeRequest reply

/-- The outcome of `ValidateWebhook`: decode failure, missing required
fields, or the parsed payload. -/
inductive WebhookResult where
  | parseFailed
  | missingFields
  | ok (w : WebhookPayload)

/-- ValidateWebhook (client.go): decode the raw payload into a
`WebhookPayload`, then require both the transaction reference and the
gateway transaction id to be non-empty. -/
def ValidateWebhook (payload : Option JsonValue) : WebhookResult :=
  match decodeBody decodeWebhookPayload payload with
  | none => .parseFailed
  | some webhook =>
    if webhook.TransactionRef = "" ∨ webhook.TransactionID = "" then .missingFields
    else .ok webhook

/-! ## Specification-side definitions and theorems -/

/-- The tolerant-decoding policy as the specification describes it, amended
by the behaviour Go's `json.Unmarshal` forces on string contents: `null`
or the empty string token is absent, a bare number is present, a string
whose content (ignoring surrounding JSON whitespace) is the literal `null`
is present with value 0, a string whose content parses as a JSON number is
present with that value, and everything else is absent. -/
def tolerantDecodeSpec : JsonValue → Option ℚ
  | .jnull => none
  | .jnum v => some v
  | .jstr s =>
    if trimWs s.toList = "null".toList then some 0
    else parseJsonNumberList (trimWs s.toList)
  | _ => none

/-- C2 counterexample: the JSON string `"null"` has a content that does not
parse as a JSON number, so the claim requires absent, yet the decoder
returns present(0): Go's `json.Unmarshal` of the bytes `null` into a
`float64` succeeds without touching the zero value. -/
theorem unmarshalJSON_null_string_counterexample :
    parseJsonNumber "null" = none ∧
    (NullableFloat64.UnmarshalJSON (JsonValue.jstr "null")).1.Value = some 0 ∧
    (NullableFloat64.UnmarshalJSON (JsonValue.jstr "null")).2 = none :=
  ⟨by decide, by decide, rfl⟩

/-- C2 (amended): `NullableFloat64.UnmarshalJSON` never returns an error,
and yields: absent for the tokens `null` and `""`; present(v) for a bare
JSON number v; for a JSON string, present(0) when the trimmed content is
the literal `null`, present(v) when the trimmed content parses as a JSON
number v, and absent otherwise; absent for every other token. -/
theorem unmarshalJSON_tolerant (b : JsonValue) :
    (NullableFloat64.UnmarshalJSON b).2 = none ∧
    (NullableFloat64.UnmarshalJSON b).1.Value = tolerantDecodeSpec b := by
  cases b with
  | jnull => exact ⟨rfl, rfl⟩
  | jbool bb => exact ⟨rfl, rfl⟩
  | jnum v => exact ⟨rfl, rfl⟩
  | jarr es => exact ⟨rfl, rfl⟩
  | jobj fs => exact ⟨rfl, rfl⟩
  | jstr s =>
    by_cases hs : s = ""
    · subst hs; exact ⟨rfl, rfl⟩
    · have hspec : tolerantDecodeSpec (.jstr s) = goUnmarshalFloat64 s := rfl
      rw [hspec]
      simp only [NullableFloat64.UnmarshalJSON, isNullOrEmptyStringToken, hs,
        decide_False, Bool.false_eq_true, if_false, parseFloatFromString]
      cases hg : goUnmarshalFloat64 s <;> simp [hg]

/-- C9: serializing a `MobileMoneyCollectionRequest` and decoding the
result back through the same schema reproduces all seven fields
unchanged. -/
theorem collectionRequest_roundtrip (req : MobileMoneyCollectionRequest) :
    decodeMobileMoneyCollectionRequest (marshalMobileMoneyCollectionRequest req) = some req :=
  rfl

/-- C10: `NewClient` never rejects a configuration; any environment other
than the exact string "production" resolves to the sandbox base URL, a
zero timeout becomes 30 seconds, and the remaining configuration values
are taken as given. -/
theorem NewClient_spec (config : ClientConfig) :
    (config.Environmen ≠ "production" → (NewClient config).baseURL = DefaultBaseURLSandbox) ∧
    (config.Environmen = "production" → (NewClient config).baseURL = DefaultBaseURLProduction) ∧
    (config.Timeout = 0 → (NewClient config).timeout = 30 * 1000000000) ∧
    (config.Timeout ≠ 0 → (NewClient config).timeout = config.Timeout) ∧
    (NewClient config).accountID = config.AccountID ∧
    (NewClient config).secretKey = config.SecretKey := by
  refine ⟨fun h => ?_, fun h => ?_, fun h => ?_, fun h => ?_, rfl, rfl⟩ <;>
    simp [NewClient, Production, h]

/-- C10 witness: a misspelled environment ("Production") with a zero
timeout yields the sandbox URL and the 30-second default. -/
theorem NewClient_spec_witness :
    (NewClient ⟨"Production", "acc-1", "sec-1", 0⟩).baseURL = DefaultBaseURLSandbox ∧
    (NewClient ⟨"Production", "acc-1", "sec-1", 0⟩).timeout = 30 * 1000000000 :=
  ⟨(NewClient_spec _).1 (by decide), (NewClient_spec _).2.2.1 rfl⟩

/-- C6: `PayWalletToBank` fills an empty service code with the bank-payout
constant and proceeds as an ordinary disbursement; a caller-supplied
service code equal to the constant also proceeds; any other explicit
service code is rejected without being overridden and without performing
the disbursement (the result ignores the reply). -/
theorem PayWalletToBank_serviceCode_spec (req : WalletToMobileRequest) (reply : HttpReply) :
    (req.ServiceCode = "" →
      PayWalletToBank req reply =
        PayWalletToMobile { req with ServiceCode := ServiceTZBankB2C } reply) ∧
    (req.ServiceCode = ServiceTZBankB2C →
      PayWalletToBank req reply = PayWalletToMobile req reply) ∧
    (req.ServiceCode ≠ "" → req.ServiceCode ≠ ServiceTZBankB2C →
      PayWalletToBank req reply =
        .validationError "serviceCode must be TZ-BANK-B2C for bank payouts") := by
  refine ⟨fun h => ?_, fun h => ?_, fun h1 h2 => ?_⟩
  · simp [PayWalletToBank, h, ServiceTZBankB2C]
  · have hne : req.ServiceCode ≠ "" := by rw [h]; decide
    simp [PayWalletToBank, h, hne, ServiceTZBankB2C]
  · have h2l : req.ServiceCode ≠ "TZ-BANK-B2C" := h2
    simp [PayWalletToBank, h1, h2l, ServiceTZBankB2C]

/-- C6 witness: an explicit mobile-wallet service code on the bank-payout
path is rejected. -/
theorem PayWalletToBank_serviceCode_spec_witness :
    PayWalletToBank
      ⟨"TZ", "ACC-1", "TZ-TIGO-B2C", 1, "255712345678", "payout", "TZS", "Jane Doe",
        "REF-9", "2024-01-01 00:00:00", "https://cb.example"⟩ ⟨200, none⟩ =
      .validationError "serviceCode must be TZ-BANK-B2C for bank payouts" :=
  (PayWalletToBank_serviceCode_spec _ _).2.2 (by decide) (by decide)

/-- C7: both status-query operations reject with a validation error when
both identifiers are empty (independently of any reply), and otherwise
hand the reply to the transport classifier. -/
theorem statusQuery_requires_identifier (req : PaymentStatusRequest) (reply : HttpReply) :
    (req.TransactionRef = "" → req.TransactionID = "" →
      GetCollectionStatus req reply =
        .validationError "either transactionRef or transactionId is required" ∧
      GetPaymentStatus req reply =
        .validationError "either transactionRef or transactionId is required") ∧
    ((req.TransactionRef ≠ "" ∨ req.TransactionID ≠ "") →
      GetCollectionStatus req reply = makeRequest reply ∧
      GetPaymentStatus req reply = makeRequest reply) := by
  constructor
  · intro h1 h2
    exact ⟨by simp [GetCollectionStatus, h1, h2], by simp [GetPaymentStatus, h1, h2]⟩
  · intro h
    have hne : ¬(req.TransactionRef = "" ∧ req.TransactionID = "") := by tauto
    exact ⟨by simp [GetCollectionStatus, hne], by simp [GetPaymentStatus, hne]⟩

/-- C7 witness: a status query with both identifiers empty is rejected,
whatever the network would have replied. -/
theorem statusQuery_requires_identifier_witness :
    GetCollectionStatus ⟨"", ""⟩ ⟨200, none⟩ =
      .validationError "either transactionRef or transactionId is required" :=
  ((statusQuery_requires_identifier ⟨"", ""⟩ ⟨200, none⟩).1 rfl rfl).1

/-- C8: `ValidateWebhook` fails with a parse error when the bytes do not
decode into the webhook shape, fails with a validation error when the
decoded payload misses the transaction reference or the gateway
transaction id, and otherwise returns the decoded payload. -/
theorem ValidateWebhook_spec (payload : Option JsonValue) :
    (decodeBody decodeWebhookPayload payload = none → ValidateWebhook payload = .parseFailed) ∧
    (∀ w, decodeBody decodeWebhookPayload payload = some w →
      ((w.TransactionRef = "" ∨ w.TransactionID = "") →
        ValidateWebhook payload = .missingFields) ∧
      (w.TransactionRef ≠ "" → w.TransactionID ≠ "" → ValidateWebhook payload = .ok w)) := by
  constructor
  · intro h; simp [ValidateWebhook, h]
  · intro w hw
    constructor
    · intro hempty; simp [ValidateWebhook, hw, hempty]
    · intro h1 h2; simp [ValidateWebhook, hw, h1, h2]

/-- C8 witness: a well-formed webhook body with both identifiers present
is returned as the decoded payload. -/
theorem ValidateWebhook_spec_witness :
    ValidateWebhook (some (.jobj [("statusCode", .jstr "PAYMENT_ACCEPTED"),
        ("transactionRef", .jstr "REF-7"), ("transactionId", .jstr "ID-7")])) =
      .ok ⟨"PAYMENT_ACCEPTED", "REF-7", "ID-7"⟩ :=
  ((ValidateWebhook_spec (some (.jobj [("statusCode", .jstr "PAYMENT_ACCEPTED"),
      ("transactionRef", .jstr "REF-7"), ("transactionId", .jstr "ID-7")]))).2
    ⟨"PAYMENT_ACCEPTED", "REF-7", "ID-7"⟩ rfl).2 (by decide) (by decide)

/-- Peeling one check off a validation chain: the chain returns no error
exactly when the leading condition fails and the rest returns no error. -/
theorem ite_some_none_iff (c : Prop) [Decidable c] (m : String) (rest : Option String) :
    (if c then some m else rest) = none ↔ ¬c ∧ rest = none := by
  split_ifs with h <;> simp [h]

/-- Membership in the supported-channel whitelist, as a disjunction. -/
theorem isValidChannel_iff (c : String) :
    isValidChannel c = true ↔
      (c = ChannelTZTigoC2B ∨ c = ChannelTZAirtelC2B ∨ c = ChannelTZHalotelC2B) := by
  simp only [isValidChannel, GetSupportedChannels, containsString,
    ChannelTZTigoC2B, ChannelTZAirtelC2B, ChannelTZHalotelC2B]
  split_ifs with e1 e2 e3 <;> simp_all [eq_comm]

/-- Membership in the supported-service whitelist, as a disjunction. -/
theorem isValidService_iff (c : String) :
    isValidService c = true ↔
      (c = ServiceTZTigoB2C ∨ c = ServiceTZAirtelB2C ∨ c = ServiceTZBankB2C) := by
  simp only [isValidService, GetSupportedServices, containsString,
    ServiceTZTigoB2C, ServiceTZAirtelB2C, ServiceTZBankB2C]
  split_ifs with e1 e2 e3 <;> simp_all [eq_comm]

/-- Non-membership in the supported-channel whitelist, as a conjunction. -/
theorem isValidChannel_eq_false_iff (c : String) :
    isValidChannel c = false ↔
      (c ≠ ChannelTZTigoC2B ∧ c ≠ ChannelTZAirtelC2B ∧ c ≠ ChannelTZHalotelC2B) := by
  rw [← Bool.not_eq_true, isValidChannel_iff]
  tauto

/-- Non-membership in the supported-service whitelist, as a conjunction. -/
theorem isValidService_eq_false_iff (c : String) :
    isValidService c = false ↔
      (c ≠ ServiceTZTigoB2C ∧ c ≠ ServiceTZAirtelB2C ∧ c ≠ ServiceTZBankB2C) := by
  rw [← Bool.not_eq_true, isValidService_iff]
  tauto

/-- C4: collection validation accepts exactly the requests whose textual
fields are non-empty, whose amount is strictly positive and whose channel
is one of the three supported channel codes; on rejection,
`CollectFromMobileMoney` returns the validation error whatever the network
would have replied. -/
theorem validateMobileMoneyRequest_spec (req : MobileMoneyCollectionRequest) :
    (validateMobileMoneyRequest req = none ↔
      (req.MSISDN ≠ "" ∧ req.Channel ≠ "" ∧ req.Narration ≠ "" ∧ req.TransactionRef ≠ "" ∧
        req.TransactionDate ≠ "" ∧ req.CallbackURL ≠ "" ∧ 0 < req.Amount ∧
        (req.Channel = ChannelTZTigoC2B ∨ req.Channel = ChannelTZAirtelC2B ∨
          req.Channel = ChannelTZHalotelC2B))) ∧
    (∀ msg reply, validateMobileMoneyRequest req = some msg →
      CollectFromMobileMoney req reply = .validationError msg) := by
  constructor
  · unfold validateMobileMoneyRequest
    split_ifs with h1 h2 h3 h4 h5 h6 h7 h8 <;>
      (simp_all [not_le, isValidChannel_iff, isValidChannel_eq_false_iff]; try tauto)
  · intro msg reply h
    simp [CollectFromMobileMoney, h]

/-- C4 witness: an otherwise well-formed request with an empty MSISDN is
rejected locally, independently of the reply. -/
theorem validateMobileMoneyRequest_spec_witness :
    CollectFromMobileMoney
      ⟨"", "TZ-TIGO-C2B", 1, "desc", "REF-4", "2024-01-01 00:00:00", "https://cb.example"⟩
      ⟨200, none⟩ = .validationError "MSISDN is required" :=
  (validateMobileMoneyRequest_spec _).2 _ _ rfl

set_option maxHeartbeats 1000000 in
/-- C5: disbursement validation accepts exactly the requests with country
code "TZ", currency code "TZS", a supported service code, non-empty
recipient names, source account, MSISDN, narration, transaction reference,
transaction date and callback URL, and a strictly positive amount; on
rejection, `PayWalletToMobile` returns the validation error whatever the
network would have replied, so no invalid request reaches the transport
layer. -/
theorem validateWalletToMobileRequest_spec (req : WalletToMobileRequest) :
    (validateWalletToMobileRequest req = none ↔
      (req.CountryCode = "TZ" ∧ req.CurrencyCode = "TZS" ∧
        (req.ServiceCode = ServiceTZTigoB2C ∨ req.ServiceCode = ServiceTZAirtelB2C ∨
          req.ServiceCode = ServiceTZBankB2C) ∧
        req.RecipientNames ≠ "" ∧ req.AccountNo ≠ "" ∧ 0 < req.Amount ∧
        req.MSISDN ≠ "" ∧ req.Narration ≠ "" ∧ req.TransactionRef ≠ "" ∧
        req.TransactionDate ≠ "" ∧ req.CallbackURL ≠ "")) ∧
    (∀ msg reply, validateWalletToMobileRequest req = some msg →
      PayWalletToMobile req reply = .validationError msg) := by
  constructor
  · rw [validateWalletToMobileRequest]
    simp only [ite_some_none_iff, not_not, not_le, Bool.not_eq_true, Bool.not_eq_false,
      Bool.not_eq_false', isValidService_iff]
    constructor
    · intro h
      tauto
    · rintro ⟨hcc, hcu, hsc | hsc | hsc, hrest⟩ <;>
        simp_all [isValidService_iff, ServiceTZTigoB2C, ServiceTZAirtelB2C, ServiceTZBankB2C]
  · intro msg reply h
    simp [PayWalletToMobile, h]

/-- C5 witness: a disbursement with an unsupported country code is rejected
locally, independently of the reply. -/
theorem validateWalletToMobileRequest_spec_witness :
    PayWalletToMobile
      ⟨"KE", "ACC-1", "TZ-TIGO-B2C", 1, "255712345678", "payout", "TZS", "Jane Doe",
        "REF-5", "2024-01-01 00:00:00", "https://cb.example"⟩ ⟨200, none⟩ =
      .validationError "unsupported countryCode: KE" :=
  (validateWalletToMobileRequest_spec _).2 _ _ rfl

/-- A 201 reply whose body decodes into the response shape with a
pending-acknowledgement status code. -/
def cexBody201 : JsonValue :=
  .jobj [("statusCode", .jstr "PENDING_ACK"), ("transactionRef", .jstr "REF-1"),
         ("transactionId", .jstr "ID-1")]

/-- C1 counterexample: a reply with the 2xx status 201 and a body that
decodes into the response shape with status code PENDING_ACK is not
returned as success — `makeRequest` accepts only status exactly 200 and
classifies everything else through the error path, here as a generic
transport error. -/
theorem makeRequest_2xx_success_counterexample :
    (200 ≤ 201 ∧ 201 < 300) ∧
    decodeBody decodeMobileMoneyCollectionResponse (some cexBody201) =
      some ⟨"PENDING_ACK", "REF-1", "ID-1"⟩ ∧
    makeRequest ⟨201, some cexBody201⟩ = .transportError 201 (some cexBody201) ∧
    makeRequest ⟨201, some cexBody201⟩ ≠ .ok ⟨"PENDING_ACK", "REF-1", "ID-1"⟩ :=
  ⟨⟨by decide, by decide⟩, rfl, rfl, fun h => RequestResult.noConfusion h⟩

/-- C1 (amended): for a reply with transport status exactly 200 (rather
than any 2xx status) whose body decodes into the response shape, a decoded
status code of PAYMENT_REJECTED or GENERIC_ERROR is surfaced as the
business `Error` carrying that status code, and any other decoded status
code is returned as success. -/
theorem makeRequest_status200_business (body : JsonValue) (r : MobileMoneyCollectionResponse)
    (h : decodeMobileMoneyCollectionResponse body = some r) :
    ((r.StatusCode = StatusPaymentRejected ∨ r.StatusCode = StatusGenericError) →
      makeRequest ⟨200, some body⟩ = .businessError r ⟨r.StatusCode, "Request failed", ""⟩) ∧
    (r.StatusCode ≠ StatusPaymentRejected → r.StatusCode ≠ StatusGenericError →
      makeRequest ⟨200, some body⟩ = .ok r) := by
  constructor
  · intro hrc
    simp [makeRequest, decodeBody, h, hrc]
  · intro h1 h2
    simp [makeRequest, decodeBody, h, h1, h2]

/-- C1 witness: a 200 reply whose body carries status PAYMENT_REJECTED is
surfaced as a business error, not as success. -/
theorem makeRequest_status200_business_witness :
    makeRequest ⟨200, some (.jobj [("statusCode", .jstr "PAYMENT_REJECTED"),
        ("transactionRef", .jstr "REF-2"), ("transactionId", .jstr "ID-2")])⟩ =
      .businessError ⟨"PAYMENT_REJECTED", "REF-2", "ID-2"⟩
        ⟨"PAYMENT_REJECTED", "Request failed", ""⟩ :=
  (makeRequest_status200_business
    (.jobj [("statusCode", .jstr "PAYMENT_REJECTED"), ("transactionRef", .jstr "REF-2"),
      ("transactionId", .jstr "ID-2")])
    ⟨"PAYMENT_REJECTED", "REF-2", "ID-2"⟩ rfl).1 (Or.inl rfl)

/-- A 204 reply whose body decodes into the response shape. -/
def cexBody204 : JsonValue :=
  .jobj [("statusCode", .jstr "PENDING_ACK"), ("transactionRef", .jstr "REF-3"),
         ("transactionId", .jstr "ID-3")]

/-- C3 counterexample: a reply with the 2xx status 204 and a decodable
response body is neither decoded into the response (no success) nor a
decode error — `makeRequest` treats every status other than exactly 200
through the error path, here as a generic transport error. -/
theorem makeRequest_2xx_decode_counterexample :
    (200 ≤ 204 ∧ 204 < 300) ∧
    decodeBody decodeMobileMoneyCollectionResponse (some cexBody204) =
      some ⟨"PENDING_ACK", "REF-3", "ID-3"⟩ ∧
    makeRequest ⟨204, some cexBody204⟩ = .transportError 204 (some cexBody204) ∧
    makeRequest ⟨204, some cexBody204⟩ ≠ .ok ⟨"PENDING_ACK", "REF-3", "ID-3"⟩ ∧
    makeRequest ⟨204, some cexBody204⟩ ≠ .decodeFailed :=
  ⟨⟨by decide, by decide⟩, rfl, rfl, fun h => RequestResult.noConfusion h,
    fun h => RequestResult.noConfusion h⟩

/-- C3 (amended): a reply with status different from 200 (rather than
"non-2xx") is surfaced as the decoded `APIError` when the body decodes into
the error envelope with a non-zero status code, and otherwise as a generic
transport error carrying the raw status and body; a reply with status
exactly 200 (rather than any 2xx) has its body decoded into the response
shape — yielding success or a business error built from that decoded
response — and a decode failure is surfaced as a decode error. -/
theorem makeRequest_transport_spec (reply : HttpReply) :
    (reply.status ≠ 200 →
      (∀ e, decodeBody decodeAPIError reply.body = some e →
        (e.StatusCode ≠ 0 → makeRequest reply = .apiError e) ∧
        (e.StatusCode = 0 → makeRequest reply = .transportError reply.status reply.body)) ∧
      (decodeBody decodeAPIError reply.body = none →
        makeRequest reply = .transportError reply.status reply.body)) ∧
    (reply.status = 200 →
      (decodeBody decodeMobileMoneyCollectionResponse reply.body = none →
        makeRequest reply = .decodeFailed) ∧
      (∀ r, decodeBody decodeMobileMoneyCollectionResponse reply.body = some r →
        makeRequest reply = .ok r ∨
        makeRequest reply = .businessError r ⟨r.StatusCode, "Request failed", ""⟩)) := by
  obtain ⟨status, body⟩ := reply
  constructor
  · intro hne
    refine ⟨fun e he => ⟨fun he0 => ?_, fun he0 => ?_⟩, fun hd => ?_⟩
    · simp [makeRequest, hne, he, he0]
    · simp [makeRequest, hne, he, he0]
    · simp [makeRequest, hne, hd]
  · intro h200
    subst h200
    refine ⟨fun hd => ?_, fun r hr => ?_⟩
    · simp [makeRequest, hd]
    · by_cases hrc : r.StatusCode = StatusPaymentRejected ∨ r.StatusCode = StatusGenericError
      · right; simp [makeRequest, hr, hrc]
      · left; simp [makeRequest, hr, hrc]

/-- The error-envelope body of the specification's example. -/
def witBody401 : JsonValue :=
  .jobj [("statusCode", .jnum 401), ("reason", .jstr "INVALID_CREDENTIALS")]

/-- C3 witness: a 401 reply with body
`{"statusCode":401,"reason":"INVALID_CREDENTIALS"}` is surfaced as the
decoded `APIError` with status code 401 and reason INVALID_CREDENTIALS. -/
theorem makeRequest_transport_spec_witness :
    makeRequest ⟨401, some witBody401⟩ = .apiError ⟨401, "INVALID_CREDENTIALS", "", none⟩ :=
  (((makeRequest_transport_spec ⟨401, some witBody401⟩).1 (by decide)).1
      ⟨401, "INVALID_CREDENTIALS", "", none⟩ rfl).1 (by decide)

end TemboPlus
